import Mathlib

set_option linter.unusedVariables false

/-!
Verification development for the event-driven task processor
(producer / RabbitMQ / worker pipeline).

The worker-side processing pipeline is shallowly embedded:

* `TaskPayload`            — src/shared/schemas.py, the pydantic envelope model;
* `parseTaskPayload`       — json.loads + pydantic validation of a raw message,
                             as performed at the top of `process_message`;
* `WorkerSettings`         — src/worker/app/config.py (the fields the pipeline reads);
* `handle_failure`, `republish_task`, `publish_to_dlq`
                           — src/worker/app/retry_handler.py;
* `process_message`        — src/worker/app/consumer.py, returning the ordered
                             trace of broker / store / handler effects;
* `declare_infrastructure` — src/worker/app/worker.py.

Side effects (acks, publishes, Redis writes, sleeps, AMQP declarations) are
reified as ordered lists of effect values, so statements about *which* effects
happen and *in which order* are statements about these lists.  Python floats
are modelled as rationals (the only float the claims touch is
`RETRY_BASE_DELAY ** retry_count` with base 2.0 and small integer exponents,
where IEEE doubles are exact).  Python ints are `Int`.
-/

/-- A JSON value, the result of a successful `json.loads` on the message body.
Numeric literals are modelled as integers: the envelope's numeric fields
(`retry_count`, `max_retries`) are pydantic `int` fields. -/
inductive JValue where
  | null
  | bool (b : Bool)
  | num (n : Int)
  | str (s : String)
  | arr (elems : List JValue)
  | obj (fields : List (String × JValue))

/-- src/shared/schemas.py `TaskPayload`: the task envelope.  `payload` is an
opaque JSON object; `max_retries` is `Optional[int]` (`none` = absent/null). -/
structure TaskPayload where
  task_id : String
  task_type : String
  payload : List (String × JValue)
  retry_count : Int
  created_at : String
  max_retries : Option Int

/-- src/worker/app/config.py `WorkerSettings` — the fields the processing
pipeline reads, with their declared defaults.  `RETRY_BASE_DELAY` (a Python
float, default 2.0) is modelled as a rational. -/
structure WorkerSettings where
  EXCHANGE_NAME : String := "task_exchange"
  EXCHANGE_TYPE : String := "direct"
  ROUTING_KEY : String := "task.process"
  TASK_QUEUE : String := "task_queue"
  DLQ_QUEUE : String := "dead_letter_queue"
  DLQ_EXCHANGE : String := "dlq_exchange"
  REDIS_TASK_TTL : Nat := 86400
  MAX_RETRIES : Int := 3
  RETRY_BASE_DELAY : ℚ := 2

/-- src/worker/app/config.py `get_settings()` with no environment overrides:
every field takes its declared default. -/
def get_settings : WorkerSettings := {}

/-- A required `str` field: present with a string value, or validation fails. -/
def reqStr (fields : List (String × JValue)) (key : String) : Option String :=
  match fields.lookup key with
  | some (JValue.str s) => some s
  | _ => none

/-- An optional `str` field with a default: absent means the default,
present must be a string. -/
def optStr (fields : List (String × JValue)) (key dflt : String) : Option String :=
  match fields.lookup key with
  | some (JValue.str s) => some s
  | none => some dflt
  | some _ => none

/-- An optional `int` field with a default. -/
def optInt (fields : List (String × JValue)) (key : String) (dflt : Int) : Option Int :=
  match fields.lookup key with
  | some (JValue.num n) => some n
  | none => some dflt
  | some _ => none

/-- An optional `Dict[str, Any]` field defaulting to the empty dict. -/
def optObj (fields : List (String × JValue)) (key : String) :
    Option (List (String × JValue)) :=
  match fields.lookup key with
  | some (JValue.obj o) => some o
  | none => some []
  | some _ => none

/-- The `max_retries: Optional[int] = None` field: absent or JSON null give
`none`; an integer gives `some`. -/
def optMaxRetries (fields : List (String × JValue)) : Option (Option Int) :=
  match fields.lookup "max_retries" with
  | some (JValue.num n) => some (some n)
  | some JValue.null => some none
  | none => some none
  | some _ => none

/-- `TaskPayload(**raw)` — pydantic validation of a decoded JSON value
(src/shared/schemas.py).  Only `task_type` has no default.  `fresh` stands for
`str(uuid.uuid4())` and `now` for `datetime.utcnow().isoformat()`, the default
factories evaluated at this validation.  A non-object, a missing `task_type`,
or an ill-typed present field fails validation.  (Pydantic's lax numeric-string
coercions are not modelled; no claim depends on them.) -/
def parseTaskPayload (fresh now : String) : JValue → Option TaskPayload
  | JValue.obj fields => do
    let ttype ← reqStr fields "task_type"
    let tid ← optStr fields "task_id" fresh
    let pl ← optObj fields "payload"
    let rc ← optInt fields "retry_count" 0
    let ca ← optStr fields "created_at" now
    let mr ← optMaxRetries fields
    pure { task_id := tid, task_type := ttype, payload := pl,
           retry_count := rc, created_at := ca, max_retries := mr }
  | _ => none

/-- An AMQP / timing effect performed by the retry scheduler, the dead-letter
router or the infrastructure declaration, in program order. -/
inductive RetryEffect where
  | sleep (seconds : ℚ)
  | declareExchange (exchange exchange_type : String) (durable : Bool)
  | declareQueue (queue : String) (durable : Bool) (dead_letter_exchange : Option String)
  | bindQueue (queue exchange routing_key : String)
  | publish (exchange routing_key : String) (body : TaskPayload) (message_id : String)

/-- Does this effect publish to exchange `x`? -/
def publishesToExchange (x : String) : RetryEffect → Bool
  | RetryEffect.publish e _ _ _ => e == x
  | _ => false

/-- src/worker/app/retry_handler.py `_republish_task`: publish the envelope to
the main task exchange with the main routing key, message_id = task_id. -/
def republish_task (s : WorkerSettings) (task : TaskPayload) : List RetryEffect :=
  [RetryEffect.publish s.EXCHANGE_NAME s.ROUTING_KEY task task.task_id]

/-- src/worker/app/retry_handler.py `_publish_to_dlq`: declare the DLQ
exchange, queue and binding (idempotently), then publish the envelope to the
DLQ exchange with the empty routing key. -/
def publish_to_dlq (s : WorkerSettings) (task : TaskPayload) : List RetryEffect :=
  [RetryEffect.declareExchange s.DLQ_EXCHANGE "fanout" true,
   RetryEffect.declareQueue s.DLQ_QUEUE true none,
   RetryEffect.bindQueue s.DLQ_QUEUE s.DLQ_EXCHANGE "",
   RetryEffect.publish s.DLQ_EXCHANGE "" task task.task_id]

/-- src/worker/app/retry_handler.py `handle_failure`: resolve the budget
(`task.max_retries` if set, else `settings.MAX_RETRIES`), increment
`retry_count`, then either sleep `RETRY_BASE_DELAY ** retry_count` and
republish, or publish to the DLQ.  Returns the mutated envelope and the
ordered effects.  The `error` argument is only logged by the source. -/
def handle_failure (s : WorkerSettings) (task : TaskPayload) (error : String) :
    TaskPayload × List RetryEffect :=
  let max_retries := task.max_retries.getD s.MAX_RETRIES
  let task' : TaskPayload := { task with retry_count := task.retry_count + 1 }
  if task'.retry_count ≤ max_retries then
    (task', RetryEffect.sleep (s.RETRY_BASE_DELAY ^ task'.retry_count) ::
      republish_task s task')
  else
    (task', publish_to_dlq s task')

/-- src/worker/app/worker.py `_declare_infrastructure`: DLQ exchange + queue +
binding, main exchange, main queue with `x-dead-letter-exchange` pointing at
the DLQ exchange, and its binding. -/
def declare_infrastructure (s : WorkerSettings) : List RetryEffect :=
  [RetryEffect.declareExchange s.DLQ_EXCHANGE "fanout" true,
   RetryEffect.declareQueue s.DLQ_QUEUE true none,
   RetryEffect.bindQueue s.DLQ_QUEUE s.DLQ_EXCHANGE "",
   RetryEffect.declareExchange s.EXCHANGE_NAME s.EXCHANGE_TYPE true,
   RetryEffect.declareQueue s.TASK_QUEUE true (some s.DLQ_EXCHANGE),
   RetryEffect.bindQueue s.TASK_QUEUE s.EXCHANGE_NAME s.ROUTING_KEY]

/-- An observable action of `process_message` on one delivery, in program
order: broker ack / nack(requeue=False), handler invocation, Redis
`mark_processed(task_id, ttl)`, and the hand-off `handle_failure(task, err)`. -/
inductive BrokerAction where
  | ack
  | nackNoRequeue
  | invokeHandler (task : TaskPayload)
  | markProcessed (task_id : String) (ttl : Nat)
  | handleFailure (task : TaskPayload) (error : String)

/-- The keys of src/worker/app/consumer.py `TASK_HANDLERS`. -/
def TASK_HANDLERS_keys : List String :=
  ["send_email", "resize_image", "process_payment", "fail_task"]

/-- Outcome of `handler(task)` for the handlers registered in consumer.py:
`none` = returned normally, `some e` = raised exception `e`.  Only
`_handle_fail_task` raises; the other three handlers only log. -/
def sourceHandlerResult (task : TaskPayload) : Option String :=
  if task.task_type = "fail_task" then
    some "Intentional failure - testing retry mechanism"
  else none

/-- src/worker/app/consumer.py `process_message`, as the ordered trace of its
observable actions for one delivered message.  `raw` is `none` when the body
is not valid JSON, otherwise the decoded value; `dedup` is the set of task_ids
currently marked processed in Redis (`is_duplicate`); `registry` the handler
keys; `handlerResult` the outcome of invoking the registered handler.
Control flow follows the source: deserialization failure → nack(requeue=False);
duplicate → ack; unknown task_type → nack(requeue=False); handler success →
mark_processed then ack; handler exception → ack then handle_failure. -/
def process_message (s : WorkerSettings) (registry : List String)
    (handlerResult : TaskPayload → Option String) (dedup : List String)
    (fresh now : String) (raw : Option JValue) : List BrokerAction :=
  match raw.bind (parseTaskPayload fresh now) with
  | none => [BrokerAction.nackNoRequeue]
  | some task =>
    if task.task_id ∈ dedup then
      [BrokerAction.ack]
    else if task.task_type ∉ registry then
      [BrokerAction.nackNoRequeue]
    else
      match handlerResult task with
      | none =>
        [BrokerAction.invokeHandler task,
         BrokerAction.markProcessed task.task_id s.REDIS_TASK_TTL,
         BrokerAction.ack]
      | some e =>
        [BrokerAction.invokeHandler task,
         BrokerAction.ack,
         BrokerAction.handleFailure task e]

/-- A concrete well-formed envelope used to instantiate witnesses. -/
def exampleTask : TaskPayload :=
  { task_id := "t-1", task_type := "send_email", payload := [],
    retry_count := 0, created_at := "2026-01-01T00:00:00", max_retries := none }

example :
    parseTaskPayload "u1" "n1" (JValue.obj [("task_type", JValue.str "send_email")]) =
      some { task_id := "u1", task_type := "send_email", payload := [],
             retry_count := 0, created_at := "n1", max_retries := none } := rfl

example :
    process_message get_settings TASK_HANDLERS_keys sourceHandlerResult []
      "t-1" "n1" (some (JValue.obj [("task_id", JValue.str "t-1"),
        ("task_type", JValue.str "send_email"),
        ("created_at", JValue.str "2026-01-01T00:00:00")])) =
      [BrokerAction.invokeHandler exampleTask,
       BrokerAction.markProcessed "t-1" 86400,
       BrokerAction.ack] := rfl

/-- Raw body of a well-formed `send_email` submission carrying no `task_id`,
used to instantiate witnesses (the parser assigns `fresh` as the id). -/
def okRaw : JValue := JValue.obj [("task_type", JValue.str "send_email")]

/-- The envelope `okRaw` parses to with `fresh = "u"` and `now = "n"`. -/
def okTask : TaskPayload :=
  { task_id := "u", task_type := "send_email", payload := [],
    retry_count := 0, created_at := "n", max_retries := none }

/-- Raw body of a `fail_task` submission, whose registered handler raises. -/
def failRaw : JValue := JValue.obj [("task_type", JValue.str "fail_task")]

/-- The envelope `failRaw` parses to with `fresh = "u"` and `now = "n"`. -/
def failTask : TaskPayload :=
  { task_id := "u", task_type := "fail_task", payload := [],
    retry_count := 0, created_at := "n", max_retries := none }

/-- C2: a delivered message that parses to an envelope whose task_id is
already marked processed in the dedup store is acknowledged immediately: the
action trace is exactly one ack — no handler invocation and no second
`mark_processed` write appear. -/
theorem C2_duplicate_acked_without_handler (s : WorkerSettings)
    (registry : List String) (handlerResult : TaskPayload → Option String)
    (dedup : List String) (fresh now : String) (raw : Option JValue)
    (task : TaskPayload)
    (hparse : raw.bind (parseTaskPayload fresh now) = some task)
    (hdup : task.task_id ∈ dedup) :
    process_message s registry handlerResult dedup fresh now raw =
      [BrokerAction.ack] := by
  unfold process_message
  rw [hparse]
  simp [hdup]

/-- Witness for C2 at a concrete redelivered duplicate. -/
theorem C2_duplicate_acked_without_handler_witness :
    process_message get_settings TASK_HANDLERS_keys sourceHandlerResult
      ["t-1"] "u" "n"
      (some (JValue.obj [("task_id", JValue.str "t-1"),
        ("task_type", JValue.str "send_email")])) = [BrokerAction.ack] :=
  C2_duplicate_acked_without_handler get_settings TASK_HANDLERS_keys
    sourceHandlerResult ["t-1"] "u" "n"
    (some (JValue.obj [("task_id", JValue.str "t-1"),
      ("task_type", JValue.str "send_email")]))
    { task_id := "t-1", task_type := "send_email", payload := [],
      retry_count := 0, created_at := "n", max_retries := none }
    rfl (by simp)

/-- C4: when the handler returns success, the consumer first writes the
task_id to the dedup store with the configured TTL and then acks, in that
order (the trace is invoke, mark_processed, ack). -/
theorem C4_success_marks_then_acks (s : WorkerSettings)
    (registry : List String) (handlerResult : TaskPayload → Option String)
    (dedup : List String) (fresh now : String) (raw : Option JValue)
    (task : TaskPayload)
    (hparse : raw.bind (parseTaskPayload fresh now) = some task)
    (hnew : task.task_id ∉ dedup)
    (hreg : task.task_type ∈ registry)
    (hok : handlerResult task = none) :
    process_message s registry handlerResult dedup fresh now raw =
      [BrokerAction.invokeHandler task,
       BrokerAction.markProcessed task.task_id s.REDIS_TASK_TTL,
       BrokerAction.ack] := by
  unfold process_message
  rw [hparse]
  simp [hnew, hreg, hok]

/-- Witness for C4 at a concrete succeeding `send_email` delivery. -/
theorem C4_success_marks_then_acks_witness :
    process_message get_settings TASK_HANDLERS_keys sourceHandlerResult
      [] "u" "n" (some okRaw) =
      [BrokerAction.invokeHandler okTask,
       BrokerAction.markProcessed okTask.task_id get_settings.REDIS_TASK_TTL,
       BrokerAction.ack] :=
  C4_success_marks_then_acks get_settings TASK_HANDLERS_keys
    sourceHandlerResult [] "u" "n" (some okRaw) okTask
    rfl (by simp) (by simp [okTask, TASK_HANDLERS_keys]) rfl

/-- C5: when the handler raises, the consumer acks the original delivery
first and only then hands the envelope and the error to `handle_failure`; the
trace never contains a nack of the original delivery. -/
theorem C5_failure_acks_then_schedules_retry (s : WorkerSettings)
    (registry : List String) (handlerResult : TaskPayload → Option String)
    (dedup : List String) (fresh now : String) (raw : Option JValue)
    (task : TaskPayload) (e : String)
    (hparse : raw.bind (parseTaskPayload fresh now) = some task)
    (hnew : task.task_id ∉ dedup)
    (hreg : task.task_type ∈ registry)
    (herr : handlerResult task = some e) :
    process_message s registry handlerResult dedup fresh now raw =
      [BrokerAction.invokeHandler task,
       BrokerAction.ack,
       BrokerAction.handleFailure task e] ∧
    BrokerAction.nackNoRequeue ∉
      process_message s registry handlerResult dedup fresh now raw := by
  have htrace : process_message s registry handlerResult dedup fresh now raw =
      [BrokerAction.invokeHandler task, BrokerAction.ack,
       BrokerAction.handleFailure task e] := by
    unfold process_message
    rw [hparse]
    simp [hnew, hreg, herr]
  refine ⟨htrace, ?_⟩
  rw [htrace]
  simp

/-- Witness for C5 at a concrete failing `fail_task` delivery. -/
theorem C5_failure_acks_then_schedules_retry_witness :
    process_message get_settings TASK_HANDLERS_keys sourceHandlerResult
      [] "u" "n" (some failRaw) =
      [BrokerAction.invokeHandler failTask,
       BrokerAction.ack,
       BrokerAction.handleFailure failTask
         "Intentional failure - testing retry mechanism"] :=
  (C5_failure_acks_then_schedules_retry get_settings TASK_HANDLERS_keys
    sourceHandlerResult [] "u" "n" (some failRaw) failTask
    "Intentional failure - testing retry mechanism"
    rfl (by simp) (by simp [failTask, TASK_HANDLERS_keys]) rfl).1

/-- Does the action trace write the dedup store (`mark_processed`)? -/
def writesDedup (actions : List BrokerAction) : Bool :=
  actions.any fun a =>
    match a with
    | BrokerAction.markProcessed _ _ => true
    | _ => false

/-- C3: if any path through `process_message` writes the dedup store, then the
message parsed to some envelope, that envelope's handler returned success, and
the run is the success trace — invoke, mark the parsed envelope's own task_id
with the configured TTL, ack.  Hence no parse-failure, duplicate,
unknown-task-type or handler-error path ever calls `mark_processed`. -/
theorem C3_dedup_written_only_on_success (s : WorkerSettings)
    (registry : List String) (handlerResult : TaskPayload → Option String)
    (dedup : List String) (fresh now : String) (raw : Option JValue)
    (hw : writesDedup
      (process_message s registry handlerResult dedup fresh now raw) = true) :
    match raw.bind (parseTaskPayload fresh now) with
    | none => False
    | some task =>
        handlerResult task = none ∧
        task.task_id ∉ dedup ∧
        task.task_type ∈ registry ∧
        process_message s registry handlerResult dedup fresh now raw =
          [BrokerAction.invokeHandler task,
           BrokerAction.markProcessed task.task_id s.REDIS_TASK_TTL,
           BrokerAction.ack] := by
  unfold process_message at hw
  cases hp : raw.bind (parseTaskPayload fresh now) with
  | none =>
    rw [hp] at hw
    simp [writesDedup] at hw
  | some task =>
    rw [hp] at hw
    by_cases hd : task.task_id ∈ dedup
    · simp [hd, writesDedup] at hw
    · by_cases hr : task.task_type ∈ registry
      · cases hh : handlerResult task with
        | none =>
          refine ⟨hh, hd, hr, ?_⟩
          unfold process_message
          rw [hp]
          simp [hd, hr, hh]
        | some e =>
          simp [hd, hr, hh, writesDedup] at hw
      · simp [hd, hr, writesDedup] at hw

/-- Witness for C3 at a concrete succeeding delivery that writes the store. -/
theorem C3_dedup_written_only_on_success_witness :
    sourceHandlerResult okTask = none ∧
    okTask.task_id ∉ ([] : List String) ∧
    okTask.task_type ∈ TASK_HANDLERS_keys ∧
    process_message get_settings TASK_HANDLERS_keys sourceHandlerResult
      [] "u" "n" (some okRaw) =
      [BrokerAction.invokeHandler okTask,
       BrokerAction.markProcessed okTask.task_id get_settings.REDIS_TASK_TTL,
       BrokerAction.ack] :=
  C3_dedup_written_only_on_success get_settings TASK_HANDLERS_keys
    sourceHandlerResult [] "u" "n" (some okRaw) rfl

/-- C7 counterexample: a parseable envelope whose task_type has no registered
handler but whose task_id is already in the dedup store is *acknowledged*, not
rejected — the consumer's dedup check precedes the registry lookup — so the
claim's unconditional "reject every unknown-task_type envelope" fails. -/
theorem C7_counterexample :
    (some (JValue.obj [("task_id", JValue.str "t-1"),
        ("task_type", JValue.str "no_such_type")])).bind
        (parseTaskPayload "u" "n") =
      some { task_id := "t-1", task_type := "no_such_type", payload := [],
             retry_count := 0, created_at := "n", max_retries := none } ∧
    TASK_HANDLERS_keys.contains "no_such_type" = false ∧
    process_message get_settings TASK_HANDLERS_keys sourceHandlerResult
      ["t-1"] "u" "n"
      (some (JValue.obj [("task_id", JValue.str "t-1"),
        ("task_type", JValue.str "no_such_type")])) = [BrokerAction.ack] ∧
    BrokerAction.ack ≠ BrokerAction.nackNoRequeue := by
  refine ⟨rfl, rfl, rfl, by simp⟩

/-- C7 (amended: the unknown-task_type case additionally requires the task_id
not to be already marked processed, since the dedup check runs first): a raw
message that fails to parse, or a parsed non-duplicate envelope with an
unregistered task_type, is nacked with requeue disabled — the broker-native
dead-letter path — with no handler invocation, and the callback returns
normally with that single-action trace. -/
theorem C7_malformed_or_unknown_rejected (s : WorkerSettings)
    (registry : List String) (handlerResult : TaskPayload → Option String)
    (dedup : List String) (fresh now : String) (raw : Option JValue)
    (h : raw.bind (parseTaskPayload fresh now) = none ∨
         ∃ task, raw.bind (parseTaskPayload fresh now) = some task ∧
           task.task_id ∉ dedup ∧ task.task_type ∉ registry) :
    process_message s registry handlerResult dedup fresh now raw =
      [BrokerAction.nackNoRequeue] ∧
    writesDedup (process_message s registry handlerResult dedup fresh now raw)
      = false := by
  have htrace : process_message s registry handlerResult dedup fresh now raw =
      [BrokerAction.nackNoRequeue] := by
    rcases h with hp | ⟨task, hp, hnew, hunk⟩
    · unfold process_message
      rw [hp]
    · unfold process_message
      rw [hp]
      simp [hnew, hunk]
  exact ⟨htrace, by rw [htrace]; rfl⟩

/-- Witness for amended C7 at a concrete undecodable body. -/
theorem C7_malformed_or_unknown_rejected_witness :
    process_message get_settings TASK_HANDLERS_keys sourceHandlerResult
      [] "u" "n" none = [BrokerAction.nackNoRequeue] :=
  (C7_malformed_or_unknown_rejected get_settings TASK_HANDLERS_keys
    sourceHandlerResult [] "u" "n" none (Or.inl rfl)).1

/-- C1: after a handler failure, the effective budget is the envelope's
`max_retries` when present and otherwise the process-wide default;
`retry_count` is incremented by exactly 1; if the incremented count is ≤ the
budget the scheduler sleeps and republishes the envelope to the main task
destination, and if it is > the budget it performs the dead-letter publish
sequence instead — and then (the DLQ exchange being distinct from the main
one) none of its effects publishes to the main exchange. -/
theorem C1_retry_budget_policy (s : WorkerSettings) (task : TaskPayload)
    (err : String) :
    (handle_failure s task err).1.retry_count = task.retry_count + 1 ∧
    (handle_failure s task err).2 =
      (if task.retry_count + 1 ≤ task.max_retries.getD s.MAX_RETRIES then
        RetryEffect.sleep (s.RETRY_BASE_DELAY ^ (task.retry_count + 1)) ::
          republish_task s (handle_failure s task err).1
      else publish_to_dlq s (handle_failure s task err).1) ∧
    (s.DLQ_EXCHANGE ≠ s.EXCHANGE_NAME →
      task.max_retries.getD s.MAX_RETRIES < task.retry_count + 1 →
      ((handle_failure s task err).2.all
        (fun eff => ! publishesToExchange s.EXCHANGE_NAME eff)) = true) := by
  obtain ⟨tid, tty, pl, rc, ca, mr⟩ := task
  simp only [handle_failure]
  by_cases hle : rc + 1 ≤ mr.getD s.MAX_RETRIES
  · simp only [if_pos hle]
    exact ⟨trivial, trivial, fun _ hlt => absurd hle (not_le.mpr hlt)⟩
  · simp only [if_neg hle]
    refine ⟨trivial, trivial, fun hne _ => ?_⟩
    simp [publish_to_dlq, publishesToExchange, hne]

/-- A concrete envelope that has exhausted the default budget. -/
def spentTask : TaskPayload :=
  { task_id := "t-1", task_type := "send_email", payload := [],
    retry_count := 3, created_at := "2026-01-01T00:00:00",
    max_retries := none }

/-- Witness for C1 at a concrete envelope past the default budget. -/
theorem C1_retry_budget_policy_witness :
    ((handle_failure get_settings spentTask "boom").2.all
      (fun eff => ! publishesToExchange get_settings.EXCHANGE_NAME eff))
      = true :=
  (C1_retry_budget_policy get_settings spentTask "boom").2.2
    (by decide) (by decide)

/-- C6: with the default settings (budget 3, backoff base 2.0) and an
always-failing handler, a fresh envelope follows exactly the schedule
`retry_count` 1/2/3 with backoff sleeps of 2, 4 and 8 seconds before each
republish to the main destination, and the fourth failure drives
`retry_count` to 4 > 3 and produces only the dead-letter publish sequence,
with no republish to the main exchange. -/
theorem C6_default_budget_schedule (task : TaskPayload) (e1 e2 e3 e4 : String)
    (h0 : task.retry_count = 0) (hmr : task.max_retries = none) :
    handle_failure get_settings task e1 =
      ({ task with retry_count := 1 },
       [RetryEffect.sleep 2,
        RetryEffect.publish "task_exchange" "task.process"
          { task with retry_count := 1 } task.task_id]) ∧
    handle_failure get_settings { task with retry_count := 1 } e2 =
      ({ task with retry_count := 2 },
       [RetryEffect.sleep 4,
        RetryEffect.publish "task_exchange" "task.process"
          { task with retry_count := 2 } task.task_id]) ∧
    handle_failure get_settings { task with retry_count := 2 } e3 =
      ({ task with retry_count := 3 },
       [RetryEffect.sleep 8,
        RetryEffect.publish "task_exchange" "task.process"
          { task with retry_count := 3 } task.task_id]) ∧
    handle_failure get_settings { task with retry_count := 3 } e4 =
      ({ task with retry_count := 4 },
       [RetryEffect.declareExchange "dlq_exchange" "fanout" true,
        RetryEffect.declareQueue "dead_letter_queue" true none,
        RetryEffect.bindQueue "dead_letter_queue" "dlq_exchange" "",
        RetryEffect.publish "dlq_exchange" ""
          { task with retry_count := 4 } task.task_id]) ∧
    ((handle_failure get_settings { task with retry_count := 3 } e4).2.all
      (fun eff => ! publishesToExchange "task_exchange" eff)) = true := by
  obtain ⟨tid, tty, pl, rc, ca, mr⟩ := task
  dsimp only at h0 hmr
  subst h0
  subst hmr
  refine ⟨?_, ?_, ?_, ?_, ?_⟩
  all_goals
    norm_num [handle_failure, get_settings, republish_task, publish_to_dlq,
      publishesToExchange]
  decide

/-- Witness for C6 at a concrete fresh envelope. -/
theorem C6_default_budget_schedule_witness :
    handle_failure get_settings exampleTask "boom" =
      ({ exampleTask with retry_count := 1 },
       [RetryEffect.sleep 2,
        RetryEffect.publish "task_exchange" "task.process"
          { exampleTask with retry_count := 1 } exampleTask.task_id]) :=
  (C6_default_budget_schedule exampleTask "boom" "b" "c" "d" rfl rfl).1

/-- C8: the envelope produced by `handle_failure` (the one republished or
dead-lettered) differs from the failed envelope only in `retry_count`, which
grows by exactly 1 (hence never decreases), and every publish it performs
carries exactly that envelope as body, keyed by the unchanged task_id. -/
theorem C8_republish_frame (s : WorkerSettings) (task : TaskPayload)
    (err : String) :
    (handle_failure s task err).1.task_id = task.task_id ∧
    (handle_failure s task err).1.task_type = task.task_type ∧
    (handle_failure s task err).1.payload = task.payload ∧
    (handle_failure s task err).1.created_at = task.created_at ∧
    (handle_failure s task err).1.max_retries = task.max_retries ∧
    (handle_failure s task err).1.retry_count = task.retry_count + 1 ∧
    task.retry_count ≤ (handle_failure s task err).1.retry_count ∧
    (∀ ex rk body mid,
      RetryEffect.publish ex rk body mid ∈ (handle_failure s task err).2 →
      body = (handle_failure s task err).1 ∧ mid = task.task_id) := by
  obtain ⟨tid, tty, pl, rc, ca, mr⟩ := task
  have hfst : (handle_failure s ⟨tid, tty, pl, rc, ca, mr⟩ err).1 =
      ⟨tid, tty, pl, rc + 1, ca, mr⟩ := by
    simp only [handle_failure]
    split <;> rfl
  refine ⟨by rw [hfst], by rw [hfst], by rw [hfst], by rw [hfst],
    by rw [hfst], by rw [hfst], by rw [hfst]; dsimp only; omega, ?_⟩
  intro ex rk body mid hm
  rw [hfst]
  unfold handle_failure at hm
  by_cases hle : rc + 1 ≤ mr.getD s.MAX_RETRIES
  · simp only [if_pos hle, republish_task] at hm
    simp at hm
    obtain ⟨-, -, hb, hmid⟩ := hm
    exact ⟨hb, hmid⟩
  · simp only [if_neg hle, publish_to_dlq] at hm
    simp at hm
    obtain ⟨-, -, hb, hmid⟩ := hm
    exact ⟨hb, hmid⟩

/-- Witness for C8 at a concrete dead-lettered envelope. -/
theorem C8_republish_frame_witness :
    { spentTask with retry_count := 4 } =
      (handle_failure get_settings spentTask "boom").1 ∧
    "t-1" = spentTask.task_id :=
  (C8_republish_frame get_settings spentTask "boom").2.2.2.2.2.2.2
    get_settings.DLQ_EXCHANGE "" { spentTask with retry_count := 4 } "t-1"
    (List.Mem.tail _ (List.Mem.tail _ (List.Mem.tail _ (List.Mem.head _))))

/-- C9: the retry scheduler's explicit dead-letter publish targets the same
exchange (`DLQ_EXCHANGE`) that the main task queue's broker-native
`x-dead-letter-exchange` argument names, and the router declares that
exchange, queue and binding — in that order — before its publish.  The
worker's startup declaration also declares the same DLQ destination. -/
theorem C9_dlq_paths_converge (s : WorkerSettings) (task : TaskPayload) :
    publish_to_dlq s task =
      [RetryEffect.declareExchange s.DLQ_EXCHANGE "fanout" true,
       RetryEffect.declareQueue s.DLQ_QUEUE true none,
       RetryEffect.bindQueue s.DLQ_QUEUE s.DLQ_EXCHANGE "",
       RetryEffect.publish s.DLQ_EXCHANGE "" task task.task_id] ∧
    RetryEffect.declareQueue s.TASK_QUEUE true (some s.DLQ_EXCHANGE) ∈
      declare_infrastructure s ∧
    RetryEffect.declareExchange s.DLQ_EXCHANGE "fanout" true ∈
      declare_infrastructure s ∧
    RetryEffect.declareQueue s.DLQ_QUEUE true none ∈
      declare_infrastructure s := by
  refine ⟨rfl, ?_, ?_, ?_⟩ <;> simp [declare_infrastructure]

/-- C10: pydantic validation of a decoded message requires only `task_type`:
an object carrying just a `task_type` string is accepted with every other
field defaulted — fresh UUID task_id, empty payload, retry_count 0,
current-time created_at, absent max_retries; an object with no `task_type` is
rejected; and any accepted object lacking `task_id` gets the freshly
generated UUID of that validation as its id, so each redelivery without a
task_id receives a new idempotency key. -/
theorem C10_only_task_type_required (fresh now tt : String)
    (fieldsA fieldsB : List (String × JValue)) (task : TaskPayload)
    (hA : fieldsA.lookup "task_type" = none)
    (hB : fieldsB.lookup "task_id" = none)
    (hparse : parseTaskPayload fresh now (JValue.obj fieldsB) = some task) :
    parseTaskPayload fresh now (JValue.obj [("task_type", JValue.str tt)]) =
      some { task_id := fresh, task_type := tt, payload := [],
             retry_count := 0, created_at := now, max_retries := none } ∧
    parseTaskPayload fresh now (JValue.obj fieldsA) = none ∧
    task.task_id = fresh := by
  refine ⟨rfl, by simp [parseTaskPayload, reqStr, hA], ?_⟩
  have h2 : optStr fieldsB "task_id" fresh = some fresh := by
    simp [optStr, hB]
  simp only [parseTaskPayload, h2, Option.some_bind] at hparse
  cases hq : reqStr fieldsB "task_type" with
  | none => rw [hq] at hparse; simp at hparse
  | some ttype =>
    rw [hq] at hparse
    cases ho : optObj fieldsB "payload" with
    | none => rw [ho] at hparse; simp at hparse
    | some pl =>
      rw [ho] at hparse
      cases hi : optInt fieldsB "retry_count" 0 with
      | none => rw [hi] at hparse; simp at hparse
      | some rc =>
        rw [hi] at hparse
        cases hc : optStr fieldsB "created_at" now with
        | none => rw [hc] at hparse; simp at hparse
        | some ca =>
          rw [hc] at hparse
          cases hm : optMaxRetries fieldsB with
          | none => rw [hm] at hparse; simp at hparse
          | some mr =>
            rw [hm] at hparse
            simp at hparse
            subst hparse
            rfl

/-- Witness for C10 at concrete raw objects. -/
theorem C10_only_task_type_required_witness :
    parseTaskPayload "u1" "n1"
      (JValue.obj [("task_type", JValue.str "send_email")]) =
      some { task_id := "u1", task_type := "send_email", payload := [],
             retry_count := 0, created_at := "n1", max_retries := none } ∧
    parseTaskPayload "u1" "n1" (JValue.obj []) = none ∧
    ({ task_id := "u1", task_type := "send_email", payload := [],
       retry_count := 0, created_at := "n1",
       max_retries := none } : TaskPayload).task_id = "u1" :=
  C10_only_task_type_required "u1" "n1" "send_email" []
    [("task_type", JValue.str "send_email")]
    { task_id := "u1", task_type := "send_email", payload := [],
      retry_count := 0, created_at := "n1", max_retries := none }
    rfl rfl rfl
